import Mathlib

/-!
Verification of the load-testing script `Performance Testing/locustfile.py`.

The file shallowly embeds the script's data model and operations:

* `TestConfig` constants, the `Statistics` counters and `log_scenario`;
* the three scenarios of `UserBehavior` (`scenario_register_new_user`,
  `scenario_login_with_email`, `scenario_login_with_username`) as pure state
  transformers over a `SessionState`, with the HTTP response supplied as an
  explicit input (the server is an external collaborator);
* the shutdown hook `on_test_end` and `generate_junit_report`, as a function
  from the external scheduler's aggregate statistics to the process exit code
  and the pair of reports.

Randomness (`random.choices`, `random.choice`) is passed in as explicit choice
functions; the Python exception raised while interpreting a response body is
modelled as the error branch of an `Except` carrying the exception's text.
Wall-clock values (`start_time`, timestamps, `test_duration`) play no role in
the verified properties and are omitted from the embedded records.
-/

/-- The `TestConfig` constants of the script: maximum allowed failure
percentage. -/
def TestConfig.FAILURE_THRESHOLD : ℚ := 1

/-- Minimum number of requests for the run to count as valid. -/
def TestConfig.MIN_REQUESTS : Nat := 10

/-- Maximum allowed average response time in milliseconds. -/
def TestConfig.MAX_RESPONSE_TIME : ℚ := 2000

/-- Directory the report files are written into. -/
def TestConfig.REPORT_DIR : String := "load_test_reports"

/-- The session-local `Statistics` object: `total_requests`, `failed_requests`
and `max_response_time` (milliseconds).  The `start_time` field of the Python
class is a wall-clock timestamp never read by the verified code and is
omitted. -/
structure Statistics where
  total_requests : Nat
  failed_requests : Nat
  max_response_time : ℚ
deriving DecidableEq

/-- `Statistics.__init__`: all counters start at zero. -/
def Statistics.init : Statistics :=
  { total_requests := 0, failed_requests := 0, max_response_time := 0 }

/-- One line written by `log_scenario`: scenario name, status string and
free-text details (the timestamp is omitted). -/
structure LogEntry where
  scenario : String
  status : String
  details : String
deriving DecidableEq

/-- `UserBehavior.log_scenario`: logs the entry and updates the statistics:
`total_requests += 1` always, and `failed_requests += 1` when the status
string is `"FAIL"` or `"ERROR"` (`status in ["FAIL", "ERROR"]`). -/
def log_scenario (stats : Statistics) (scenario status details : String) :
    Statistics × LogEntry :=
  ({ stats with
      total_requests := stats.total_requests + 1
      failed_requests :=
        if status = "FAIL" ∨ status = "ERROR" then stats.failed_requests + 1
        else stats.failed_requests },
   { scenario := scenario, status := status, details := details })

/-- Replays a list of `log_scenario` calls (scenario, status, details)
against a statistics object. -/
def runLog (stats : Statistics) : List (String × String × String) → Statistics
  | [] => stats
  | c :: cs => runLog (log_scenario stats c.1 c.2.1 c.2.2).1 cs

/-- A synthetic user as produced by `generate_random_user`. -/
structure User where
  fullName : String
  userName : String
  email : String
  password : String
  phone : String
deriving DecidableEq

/-- Python's `string.ascii_lowercase`, the alphabet `random.choices` draws
registration tokens from. -/
def ascii_lowercase : List Char :=
  ['a', 'b', 'c', 'd', 'e', 'f', 'g', 'h', 'i', 'j', 'k', 'l', 'm',
   'n', 'o', 'p', 'q', 'r', 's', 't', 'u', 'v', 'w', 'x', 'y', 'z']

/-- Python's `string.digits`, the alphabet the phone number is drawn from. -/
def ascii_digits : List Char :=
  ['0', '1', '2', '3', '4', '5', '6', '7', '8', '9']

/-- `UserBehavior.generate_random_string`: `length` independent draws from
`ascii_lowercase`; the random source is the explicit choice function `rand`
(the Python default for `length` is 8). -/
def generate_random_string (rand : Nat → Fin 26) (length : Nat) : String :=
  String.mk ((List.range length).map fun i => ascii_lowercase.getD (rand i).val 'a')

/-- `UserBehavior.generate_random_user`: one 8-character random lowercase
token shared by name, username, email and password, plus a 10-digit phone
number drawn from `ascii_digits` via the second choice function. -/
def generate_random_user (rand1 : Nat → Fin 26) (rand2 : Nat → Fin 10) : User :=
  let random_string := generate_random_string rand1 8
  { fullName := "Test User " ++ random_string
    userName := "testuser_" ++ random_string
    email := "test_" ++ random_string ++ "@example.com"
    password := "password_" ++ random_string
    phone := String.mk ((List.range 10).map fun i => ascii_digits.getD (rand2 i).val '0') }

/-- State owned by one `UserBehavior` session: the list of successfully
registered users and the session-local statistics. -/
structure SessionState where
  registered_users : List User
  stats : Statistics

/-- A fresh session (`UserBehavior.__init__`): no registered users and
zeroed statistics. -/
def SessionState.init : SessionState :=
  { registered_users := [], stats := Statistics.init }

/-- Outcome reported on the client library's response channel:
`response.success()` or `response.failure(reason)`. -/
inductive ResponseMark where
  | success : ResponseMark
  | failure : String → ResponseMark
deriving DecidableEq

/-- The registration response as the register scenario interprets it.
`msgField` models the composite access `response.json()['msg']`: `.ok m` is
the value of the body's `msg` field, `.error e` covers every exception while
interpreting the response (unparseable body or missing `msg` field) with `e`
the exception's text `str(e)`.  `elapsedMs` is
`response.elapsed.total_seconds() * 1000`. -/
structure RegResponse where
  msgField : Except String String
  elapsedMs : ℚ

/-- A parsed login response body: whether a `token` field is present and the
optional `msg` field. -/
structure LoginBody where
  hasToken : Bool
  msg : Option String

/-- The login response: `.ok` a parsed body, `.error e` an unparseable body
(`response.json()` raised) with `e` the exception's text. -/
structure LoginResponse where
  body : Except String LoginBody

/-- The form payload posted to `/client_login`. -/
structure LoginPayload where
  userName : String
  email : String
  password : String
deriving DecidableEq

/-- Result of one register-scenario invocation: the new session state, the
line passed to `log_scenario`, and the response-channel mark.  The request is
always issued, with the generated user as its payload. -/
structure RegisterResult where
  state : SessionState
  logged : LogEntry
  mark : ResponseMark

/-- Result of one login-scenario invocation.  `request = none` and
`mark = none` on the short-circuit (SKIP) path, where no HTTP request is
issued. -/
structure LoginResult where
  state : SessionState
  logged : LogEntry
  request : Option LoginPayload
  mark : Option ResponseMark

/-- `UserBehavior.scenario_register_new_user`: generate a random user, post
it to `/client_registeration`, and classify the response.  On
`msg == 'User Registered'`: log SUCCESS, mark the response successful and
append the user to `registered_users`.  On any other `msg`: log FAIL and mark
failure with the server-provided message.  On an exception while interpreting
the response: log ERROR with the exception's text and mark failure with
`"Invalid response: " ++ text`.  On every path `max_response_time` is then
updated to the maximum of its old value and the observed latency. -/
def scenario_register_new_user (st : SessionState) (rand1 : Nat → Fin 26)
    (rand2 : Nat → Fin 10) (resp : RegResponse) : RegisterResult :=
  let user_data := generate_random_user rand1 rand2
  let inner : SessionState × LogEntry × ResponseMark :=
    match resp.msgField with
    | Except.ok m =>
      if m = "User Registered" then
        let r := log_scenario st.stats "Registration" "SUCCESS" ("User: " ++ user_data.email)
        (⟨st.registered_users ++ [user_data], r.1⟩, r.2, ResponseMark.success)
      else
        let r := log_scenario st.stats "Registration" "FAIL"
          ("User: " ++ user_data.email ++ ", Error: " ++ m)
        (⟨st.registered_users, r.1⟩, r.2, ResponseMark.failure m)
    | Except.error e =>
      let r := log_scenario st.stats "Registration" "ERROR" e
      (⟨st.registered_users, r.1⟩, r.2, ResponseMark.failure ("Invalid response: " ++ e))
  { state :=
      { registered_users := inner.1.registered_users
        stats := { inner.1.stats with
          max_response_time := max inner.1.stats.max_response_time resp.elapsedMs } }
    logged := inner.2.1
    mark := inner.2.2 }

/-- `UserBehavior.scenario_login_with_email`: if no user is registered, log
SKIP and return without a request.  Otherwise pick a registered user
(`random.choice`, modelled by the index `pick` reduced modulo the list
length), post `userName = ""`, the user's email and password to
`/client_login`, and classify the response: SUCCESS when the body has a
`token` field; otherwise FAIL, with the body's `msg` (default
`"Login failed"`) as the failure reason; an unparseable body is ERROR. -/
def scenario_login_with_email (st : SessionState) (pick : Nat)
    (resp : LoginResponse) : LoginResult :=
  match st.registered_users with
  | [] =>
    let r := log_scenario st.stats "Login with Email" "SKIP" "No registered users available"
    { state := { registered_users := [], stats := r.1 }
      logged := r.2, request := none, mark := none }
  | u :: us =>
    let user := (u :: us).getD (pick % (u :: us).length) u
    let payload : LoginPayload :=
      { userName := "", email := user.email, password := user.password }
    let inner : Statistics × LogEntry × ResponseMark :=
      match resp.body with
      | Except.ok body =>
        if body.hasToken then
          let r := log_scenario st.stats "Login with Email" "SUCCESS" ("User: " ++ user.email)
          (r.1, r.2, ResponseMark.success)
        else
          let r := log_scenario st.stats "Login with Email" "FAIL"
            ("User: " ++ user.email ++ ", Error: " ++ body.msg.getD "Unknown error")
          (r.1, r.2, ResponseMark.failure (body.msg.getD "Login failed"))
      | Except.error e =>
        let r := log_scenario st.stats "Login with Email" "ERROR" e
        (r.1, r.2, ResponseMark.failure ("Invalid response: " ++ e))
    { state := { registered_users := u :: us, stats := inner.1 }
      logged := inner.2.1
      request := some payload
      mark := some inner.2.2 }

/-- `UserBehavior.scenario_login_with_username`: identical to the email
variant but posts the user's `userName` with an empty email. -/
def scenario_login_with_username (st : SessionState) (pick : Nat)
    (resp : LoginResponse) : LoginResult :=
  match st.registered_users with
  | [] =>
    let r := log_scenario st.stats "Login with Username" "SKIP" "No registered users available"
    { state := { registered_users := [], stats := r.1 }
      logged := r.2, request := none, mark := none }
  | u :: us =>
    let user := (u :: us).getD (pick % (u :: us).length) u
    let payload : LoginPayload :=
      { userName := user.userName, email := "", password := user.password }
    let inner : Statistics × LogEntry × ResponseMark :=
      match resp.body with
      | Except.ok body =>
        if body.hasToken then
          let r := log_scenario st.stats "Login with Username" "SUCCESS"
            ("User: " ++ user.userName)
          (r.1, r.2, ResponseMark.success)
        else
          let r := log_scenario st.stats "Login with Username" "FAIL"
            ("User: " ++ user.userName ++ ", Error: " ++ body.msg.getD "Unknown error")
          (r.1, r.2, ResponseMark.failure (body.msg.getD "Login failed"))
      | Except.error e =>
        let r := log_scenario st.stats "Login with Username" "ERROR" e
        (r.1, r.2, ResponseMark.failure ("Invalid response: " ++ e))
    { state := { registered_users := u :: us, stats := inner.1 }
      logged := inner.2.1
      request := some payload
      mark := some inner.2.2 }

/-- One scheduled scenario invocation of a session, with its external inputs
(random choices and the server's response). -/
inductive SessionEvent where
  | register (rand1 : Nat → Fin 26) (rand2 : Nat → Fin 10) (resp : RegResponse)
  | loginEmail (pick : Nat) (resp : LoginResponse)
  | loginUsername (pick : Nat) (resp : LoginResponse)

/-- The session-state effect of one scheduled scenario invocation. -/
def sessionStep (st : SessionState) : SessionEvent → SessionState
  | SessionEvent.register rand1 rand2 resp =>
      (scenario_register_new_user st rand1 rand2 resp).state
  | SessionEvent.loginEmail pick resp =>
      (scenario_login_with_email st pick resp).state
  | SessionEvent.loginUsername pick resp =>
      (scenario_login_with_username st pick resp).state

/-- Replays a list of scheduled scenario invocations. -/
def runSession (st : SessionState) : List SessionEvent → SessionState
  | [] => st
  | e :: es => runSession (sessionStep st e) es

/-- The external scheduler's global aggregate (`environment.stats.total`) as
read by `on_test_end`: total request count, failure count and average
response time in milliseconds. -/
structure AggregateStats where
  num_requests : Nat
  num_failures : Nat
  avg_response_time : ℚ

/-- The `failure_percent` computed by `on_test_end`:
`num_failures / num_requests * 100` (only evaluated on the branch where
`num_requests` is nonzero). -/
def failure_percent (agg : AggregateStats) : ℚ :=
  ((agg.num_failures : ℚ) / (agg.num_requests : ℚ)) * 100

/-- The pass/fail condition of `on_test_end`: failure percentage above the
threshold, average response time above the maximum, or too few requests. -/
def load_test_failed (agg : AggregateStats) : Prop :=
  failure_percent agg > TestConfig.FAILURE_THRESHOLD
    ∨ agg.avg_response_time > TestConfig.MAX_RESPONSE_TIME
    ∨ agg.num_requests < TestConfig.MIN_REQUESTS

instance (agg : AggregateStats) : Decidable (load_test_failed agg) := by
  unfold load_test_failed
  exact inferInstance

/-- The JSON report written to `load_test_reports/load_test_report.json`
(`test_duration`, a wall-clock string, is omitted). -/
structure TestReport where
  total_requests : Nat
  failed_requests : Nat
  failure_percentage : ℚ
  average_response_time : ℚ

/-- The literal `<failure>` element of the JUnit template. -/
def junit_failure_element : String :=
  "<failure message=\"Failed performance requirements\"/>"

/-- The JUnit XML template up to (and excluding) the failure element. -/
def junit_head (total failed : Nat) : String :=
  "<?xml version=\"1.0\" encoding=\"UTF-8\"?>\n<testsuites>\n    <testsuite name=\"Load Test Results\" tests=\""
    ++ toString total
    ++ "\" failures=\""
    ++ toString failed
    ++ "\">\n        <testcase name=\"Performance Requirements\" classname=\"LoadTest\">\n            "

/-- The JUnit XML template after the failure element. -/
def junit_tail : String :=
  "\n        </testcase>\n    </testsuite>\n</testsuites>"

/-- The whole JUnit XML document for the given counts: the script's single
f-string template, split here around the unconditionally included failure
element. -/
def junit_template (total failed : Nat) : String :=
  junit_head total failed ++ junit_failure_element ++ junit_tail

/-- `generate_junit_report`.  Modelled from the spec: the source renders
`stats.total_requests` and `stats.failed_requests` of the scheduler aggregate
passed to it, attributes of an external framework object not part of this
repository; per the spec these denote the aggregate's total request and
failure counts, i.e. the same values `on_test_end` reads as `num_requests`
and `num_failures`. -/
def generate_junit_report (stats : AggregateStats) : String :=
  junit_template stats.num_requests stats.num_failures

/-- The two report files produced by a normal shutdown. -/
structure Reports where
  json : TestReport
  junit_xml : String

/-- The shutdown hook `on_test_end`, as a function from the scheduler's
aggregate to the process exit code and the reports.  With zero requests it
logs an error, sets the exit code to 1 and returns at once (no reports).
Otherwise it computes the failure percentage, writes the JSON and JUnit
reports, and sets the exit code from the threshold check. -/
def on_test_end (agg : AggregateStats) : Nat × Option Reports :=
  if agg.num_requests = 0 then
    (1, none)
  else
    let report : TestReport :=
      { total_requests := agg.num_requests
        failed_requests := agg.num_failures
        failure_percentage := failure_percent agg
        average_response_time := agg.avg_response_time }
    (if load_test_failed agg then 1 else 0,
     some { json := report, junit_xml := generate_junit_report agg })

lemma log_scenario_failed_le (stats : Statistics) (sc st d : String)
    (h : stats.failed_requests ≤ stats.total_requests) :
    (log_scenario stats sc st d).1.failed_requests
      ≤ (log_scenario stats sc st d).1.total_requests := by
  unfold log_scenario
  dsimp only
  split <;> omega

lemma runLog_failed_le (calls : List (String × String × String)) :
    ∀ stats : Statistics, stats.failed_requests ≤ stats.total_requests →
      (runLog stats calls).failed_requests ≤ (runLog stats calls).total_requests := by
  induction calls with
  | nil => intro stats h; exact h
  | cons c cs ih =>
    intro stats h
    exact ih _ (log_scenario_failed_le stats c.1 c.2.1 c.2.2 h)

/-- C3: every `log_scenario` call increments `total_requests` by exactly 1
(SKIP included), increments `failed_requests` by exactly 1 exactly when the
status is FAIL or ERROR, and leaves `failed_requests` unchanged on SUCCESS
and SKIP. -/
theorem log_scenario_counts (stats : Statistics) (scenario status details : String) :
    (log_scenario stats scenario status details).1.total_requests = stats.total_requests + 1
    ∧ ((log_scenario stats scenario status details).1.failed_requests
          = stats.failed_requests + 1
        ↔ (status = "FAIL" ∨ status = "ERROR"))
    ∧ (log_scenario stats scenario "SUCCESS" details).1.failed_requests
        = stats.failed_requests
    ∧ (log_scenario stats scenario "SKIP" details).1.failed_requests
        = stats.failed_requests := by
  refine ⟨rfl, ?_, by simp [log_scenario], by simp [log_scenario]⟩
  by_cases h : status = "FAIL" ∨ status = "ERROR"
  · simp [log_scenario, h]
  · simp [log_scenario, h]

/-- C4: starting from a freshly constructed `Statistics` object, after any
sequence of `log_scenario` calls the invariant
`failed_requests ≤ total_requests` holds. -/
theorem runLog_invariant (calls : List (String × String × String)) :
    (runLog Statistics.init calls).failed_requests
      ≤ (runLog Statistics.init calls).total_requests :=
  runLog_failed_le calls Statistics.init (Nat.le_refl 0)

/-- C2: with a zero global request count, `on_test_end` sets the exit code
to 1 and returns at once, producing neither report; the division
`failed / total` belongs to the other branch of the guard and is never
evaluated with a zero divisor. -/
theorem on_test_end_zero_requests (agg : AggregateStats) (h : agg.num_requests = 0) :
    on_test_end agg = (1, none) := by
  simp [on_test_end, h]

theorem on_test_end_zero_requests_witness :
    on_test_end ⟨0, 3, 7⟩ = (1, none) :=
  on_test_end_zero_requests ⟨0, 3, 7⟩ rfl

/-- C1: with at least one request observed, the exit code is 1 exactly when
`failed / total * 100 > 1` or the average response time exceeds 2000 ms or
fewer than 10 requests were made, and 0 exactly otherwise. -/
theorem on_test_end_exit_verdict (agg : AggregateStats) (h : agg.num_requests ≠ 0) :
    ((on_test_end agg).1 = 1 ↔
      ((agg.num_failures : ℚ) / (agg.num_requests : ℚ) * 100 > 1
        ∨ agg.avg_response_time > 2000
        ∨ agg.num_requests < 10))
    ∧ ((on_test_end agg).1 = 0 ↔
      ¬ ((agg.num_failures : ℚ) / (agg.num_requests : ℚ) * 100 > 1
        ∨ agg.avg_response_time > 2000
        ∨ agg.num_requests < 10)) := by
  have hc : load_test_failed agg ↔
      ((agg.num_failures : ℚ) / (agg.num_requests : ℚ) * 100 > 1
        ∨ agg.avg_response_time > 2000
        ∨ agg.num_requests < 10) := Iff.rfl
  have e1 : (on_test_end agg).1 = if load_test_failed agg then 1 else 0 := by
    simp [on_test_end, h]
  rw [e1]
  by_cases hf : load_test_failed agg
  · have hr := hc.mp hf
    simp [if_pos hf, hr]
  · have hr : ¬ ((agg.num_failures : ℚ) / (agg.num_requests : ℚ) * 100 > 1
        ∨ agg.avg_response_time > 2000
        ∨ agg.num_requests < 10) := fun hx => hf (hc.mpr hx)
    simp [if_neg hf, hr]

theorem on_test_end_exit_verdict_witness :
    (on_test_end ⟨100, 5, 500⟩).1 = 1 := by
  have h := on_test_end_exit_verdict ⟨100, 5, 500⟩ (by decide)
  exact h.1.mpr (Or.inl (by norm_num))

lemma ascii_lowercase_getD_mem : ∀ m : Fin 26,
    ascii_lowercase.getD m.val 'a' ∈ ascii_lowercase := by decide

lemma ascii_digits_getD_mem : ∀ m : Fin 10,
    ascii_digits.getD m.val '0' ∈ ascii_digits := by decide

/-- C9: every generated user embeds one 8-character random lowercase token
in its full name, username, email and password, and carries a phone number
of exactly 10 decimal digits. -/
theorem generate_random_user_shape (rand1 : Nat → Fin 26) (rand2 : Nat → Fin 10) :
    ∃ s : String, s.length = 8
      ∧ (∀ c ∈ s.data, c ∈ ascii_lowercase)
      ∧ (generate_random_user rand1 rand2).fullName = "Test User " ++ s
      ∧ (generate_random_user rand1 rand2).userName = "testuser_" ++ s
      ∧ (generate_random_user rand1 rand2).email = "test_" ++ s ++ "@example.com"
      ∧ (generate_random_user rand1 rand2).password = "password_" ++ s
      ∧ (generate_random_user rand1 rand2).phone.length = 10
      ∧ ∀ c ∈ (generate_random_user rand1 rand2).phone.data, c ∈ ascii_digits := by
  refine ⟨generate_random_string rand1 8, ?_, ?_, rfl, rfl, rfl, rfl, ?_, ?_⟩
  · simp [generate_random_string, String.length]
  · intro c hc
    simp only [generate_random_string, String.data, List.mem_map, List.mem_range] at hc
    obtain ⟨i, _, hi⟩ := hc
    exact hi ▸ ascii_lowercase_getD_mem (rand1 i)
  · simp [generate_random_user, String.length]
  · intro c hc
    simp only [generate_random_user, String.data, List.mem_map, List.mem_range] at hc
    obtain ⟨i, _, hi⟩ := hc
    exact hi ▸ ascii_digits_getD_mem (rand2 i)

/-- C5 fails as stated: on the SKIP path the login scenarios still go through
`log_scenario`, which increments `total_requests`.  At the fresh session
state the counter moves from 0 to 1 for the email variant (and likewise for
the username variant). -/
theorem login_skip_counterexample :
    ¬ ((scenario_login_with_email SessionState.init 0
          ⟨Except.error "no server"⟩).state.stats.total_requests
        = SessionState.init.stats.total_requests
      ∧ (scenario_login_with_username SessionState.init 0
          ⟨Except.error "no server"⟩).state.stats.total_requests
        = SessionState.init.stats.total_requests) := by
  intro hx
  simpa [scenario_login_with_email, log_scenario, SessionState.init,
    Statistics.init] using hx.1

/-- C5 amended: whenever `registered_users` is empty, both login scenarios
short-circuit: they log status SKIP, issue no HTTP request and leave
`failed_requests` and `registered_users` unchanged — but `total_requests` is
incremented by 1 through the shared logging path. -/
theorem login_skip_behavior (stats : Statistics) (pick pick2 : Nat)
    (resp resp2 : LoginResponse) :
    (scenario_login_with_email ⟨[], stats⟩ pick resp).logged.status = "SKIP"
    ∧ (scenario_login_with_email ⟨[], stats⟩ pick resp).request = none
    ∧ (scenario_login_with_email ⟨[], stats⟩ pick resp).mark = none
    ∧ (scenario_login_with_email ⟨[], stats⟩ pick resp).state.stats.total_requests
        = stats.total_requests + 1
    ∧ (scenario_login_with_email ⟨[], stats⟩ pick resp).state.stats.failed_requests
        = stats.failed_requests
    ∧ (scenario_login_with_email ⟨[], stats⟩ pick resp).state.registered_users = []
    ∧ (scenario_login_with_username ⟨[], stats⟩ pick2 resp2).logged.status = "SKIP"
    ∧ (scenario_login_with_username ⟨[], stats⟩ pick2 resp2).request = none
    ∧ (scenario_login_with_username ⟨[], stats⟩ pick2 resp2).mark = none
    ∧ (scenario_login_with_username ⟨[], stats⟩ pick2 resp2).state.stats.total_requests
        = stats.total_requests + 1
    ∧ (scenario_login_with_username ⟨[], stats⟩ pick2 resp2).state.stats.failed_requests
        = stats.failed_requests
    ∧ (scenario_login_with_username ⟨[], stats⟩ pick2 resp2).state.registered_users = [] := by
  refine ⟨rfl, rfl, rfl, rfl, ?_, rfl, rfl, rfl, rfl, rfl, ?_, rfl⟩
  · simp [scenario_login_with_email, log_scenario]
  · simp [scenario_login_with_username, log_scenario]

/-- C6: the register scenario appends the generated user to
`registered_users` exactly when the response's `msg` field is the literal
`"User Registered"` (logging SUCCESS and marking the response successful);
any other well-formed `msg` is logged FAIL and marked failed with the
server-provided message; an exception while interpreting the response is
logged ERROR with the exception's text; in both non-success cases
`registered_users` is unchanged. -/
theorem register_scenario_behavior (st : SessionState) (rand1 : Nat → Fin 26)
    (rand2 : Nat → Fin 10) (resp : RegResponse) :
    (scenario_register_new_user st rand1 rand2 resp).state.registered_users =
      (match resp.msgField with
        | Except.ok m =>
          if m = "User Registered" then
            st.registered_users ++ [generate_random_user rand1 rand2]
          else st.registered_users
        | Except.error _ => st.registered_users)
    ∧ (scenario_register_new_user st rand1 rand2 resp).logged.status =
      (match resp.msgField with
        | Except.ok m => if m = "User Registered" then "SUCCESS" else "FAIL"
        | Except.error _ => "ERROR")
    ∧ (scenario_register_new_user st rand1 rand2 resp).mark =
      (match resp.msgField with
        | Except.ok m =>
          if m = "User Registered" then ResponseMark.success else ResponseMark.failure m
        | Except.error e => ResponseMark.failure ("Invalid response: " ++ e))
    ∧ (scenario_register_new_user st rand1 rand2 resp).logged.details =
      (match resp.msgField with
        | Except.ok m =>
          if m = "User Registered" then
            "User: " ++ (generate_random_user rand1 rand2).email
          else "User: " ++ (generate_random_user rand1 rand2).email ++ ", Error: " ++ m
        | Except.error e => e) := by
  obtain ⟨mf, el⟩ := resp
  cases mf with
  | ok m =>
    by_cases hm : m = "User Registered" <;>
      simp [scenario_register_new_user, log_scenario, hm]
  | error e =>
    simp [scenario_register_new_user, log_scenario]

lemma getD_mod_mem (u : User) (us : List User) (pick : Nat) :
    (u :: us).getD (pick % (u :: us).length) u ∈ u :: us := by
  have hlt : pick % (u :: us).length < (u :: us).length :=
    Nat.mod_lt _ (Nat.succ_pos us.length)
  unfold List.getD
  rw [List.get?_eq_get hlt]
  exact List.get_mem _ _ _

/-- C7: with a non-empty `registered_users` list, both login scenarios submit
the picked registered user's credentials (`userName = ""` with the user's
email in the email variant, the user's `userName` with `email = ""` in the
username variant); the response channel is marked successful exactly when
the body has a `token` field, otherwise failed with the body's `msg`
defaulting to `"Login failed"`; an unparseable body is classified ERROR. -/
theorem login_scenarios_behavior (u : User) (us : List User) (stats : Statistics)
    (pick : Nat) (resp : LoginResponse) :
    ∃ user : User, user ∈ u :: us
      ∧ (scenario_login_with_email ⟨u :: us, stats⟩ pick resp).request =
          some ⟨"", user.email, user.password⟩
      ∧ (scenario_login_with_username ⟨u :: us, stats⟩ pick resp).request =
          some ⟨user.userName, "", user.password⟩
      ∧ (scenario_login_with_email ⟨u :: us, stats⟩ pick resp).mark =
          some (match resp.body with
            | Except.ok body =>
              if body.hasToken then ResponseMark.success
              else ResponseMark.failure (body.msg.getD "Login failed")
            | Except.error e => ResponseMark.failure ("Invalid response: " ++ e))
      ∧ (scenario_login_with_username ⟨u :: us, stats⟩ pick resp).mark =
          some (match resp.body with
            | Except.ok body =>
              if body.hasToken then ResponseMark.success
              else ResponseMark.failure (body.msg.getD "Login failed")
            | Except.error e => ResponseMark.failure ("Invalid response: " ++ e))
      ∧ (scenario_login_with_email ⟨u :: us, stats⟩ pick resp).logged.status =
          (match resp.body with
            | Except.ok body => if body.hasToken then "SUCCESS" else "FAIL"
            | Except.error _ => "ERROR")
      ∧ (scenario_login_with_username ⟨u :: us, stats⟩ pick resp).logged.status =
          (match resp.body with
            | Except.ok body => if body.hasToken then "SUCCESS" else "FAIL"
            | Except.error _ => "ERROR") := by
  refine ⟨(u :: us).getD (pick % (u :: us).length) u, getD_mod_mem u us pick,
    rfl, rfl, ?_, ?_, ?_, ?_⟩ <;>
  · obtain ⟨b⟩ := resp
    cases b with
    | ok body =>
      cases htk : body.hasToken <;>
        simp [scenario_login_with_email, scenario_login_with_username,
          log_scenario, htk]
    | error e =>
      simp [scenario_login_with_email, scenario_login_with_username, log_scenario]

lemma register_max_eq (st : SessionState) (rand1 : Nat → Fin 26)
    (rand2 : Nat → Fin 10) (resp : RegResponse) :
    (scenario_register_new_user st rand1 rand2 resp).state.stats.max_response_time
      = max st.stats.max_response_time resp.elapsedMs := by
  obtain ⟨mf, el⟩ := resp
  cases mf with
  | ok m =>
    by_cases hm : m = "User Registered" <;>
      simp [scenario_register_new_user, log_scenario, hm]
  | error e =>
    simp [scenario_register_new_user, log_scenario]

lemma login_email_max_eq (st : SessionState) (pick : Nat) (resp : LoginResponse) :
    (scenario_login_with_email st pick resp).state.stats.max_response_time
      = st.stats.max_response_time := by
  obtain ⟨users, stats⟩ := st
  cases users with
  | nil => simp [scenario_login_with_email, log_scenario]
  | cons u us =>
    obtain ⟨b⟩ := resp
    cases b with
    | ok body =>
      cases htk : body.hasToken <;>
        simp [scenario_login_with_email, log_scenario, htk]
    | error e =>
      simp [scenario_login_with_email, log_scenario]

lemma login_username_max_eq (st : SessionState) (pick : Nat) (resp : LoginResponse) :
    (scenario_login_with_username st pick resp).state.stats.max_response_time
      = st.stats.max_response_time := by
  obtain ⟨users, stats⟩ := st
  cases users with
  | nil => simp [scenario_login_with_username, log_scenario]
  | cons u us =>
    obtain ⟨b⟩ := resp
    cases b with
    | ok body =>
      cases htk : body.hasToken <;>
        simp [scenario_login_with_username, log_scenario, htk]
    | error e =>
      simp [scenario_login_with_username, log_scenario]

lemma sessionStep_max_mono (st : SessionState) (ev : SessionEvent) :
    st.stats.max_response_time ≤ (sessionStep st ev).stats.max_response_time := by
  cases ev with
  | register rand1 rand2 resp =>
    simp only [sessionStep, register_max_eq]
    exact le_max_left _ _
  | loginEmail pick resp =>
    simp only [sessionStep, login_email_max_eq]
    exact le_refl _
  | loginUsername pick resp =>
    simp only [sessionStep, login_username_max_eq]
    exact le_refl _

lemma runSession_max_nonneg (evs : List SessionEvent) :
    ∀ st : SessionState, 0 ≤ st.stats.max_response_time →
      0 ≤ (runSession st evs).stats.max_response_time := by
  induction evs with
  | nil => exact fun st h => h
  | cons e es ih =>
    exact fun st h => ih _ (le_trans h (sessionStep_max_mono st e))

/-- C10: the register scenario sets `max_response_time` to the maximum of
its old value and the observed latency, so each scheduled step is
non-decreasing and the value stays at least 0 over the lifetime of a session
started fresh; both login scenarios leave `max_response_time` unchanged on
every path. -/
theorem max_response_time_frame (st : SessionState) (rand1 : Nat → Fin 26)
    (rand2 : Nat → Fin 10) (resp : RegResponse) (pick : Nat)
    (lresp : LoginResponse) (evs : List SessionEvent) :
    (scenario_register_new_user st rand1 rand2 resp).state.stats.max_response_time
        = max st.stats.max_response_time resp.elapsedMs
    ∧ (scenario_login_with_email st pick lresp).state.stats.max_response_time
        = st.stats.max_response_time
    ∧ (scenario_login_with_username st pick lresp).state.stats.max_response_time
        = st.stats.max_response_time
    ∧ (∀ ev : SessionEvent,
        st.stats.max_response_time ≤ (sessionStep st ev).stats.max_response_time)
    ∧ 0 ≤ (runSession SessionState.init evs).stats.max_response_time :=
  ⟨register_max_eq st rand1 rand2 resp,
   login_email_max_eq st pick lresp,
   login_username_max_eq st pick lresp,
   sessionStep_max_mono st,
   runSession_max_nonneg evs SessionState.init (le_refl 0)⟩

/-- C8: whenever reports are produced, the JUnit XML document is exactly the
template rendered with the same `total_requests` and `failed_requests`
written into the JSON report of that run, and its single test case contains
the `<failure>` element unconditionally. -/
theorem junit_matches_json_report (agg : AggregateStats) (h : agg.num_requests ≠ 0) :
    ∃ r : Reports, (on_test_end agg).2 = some r
      ∧ r.junit_xml = junit_template r.json.total_requests r.json.failed_requests
      ∧ ∃ s t : List Char,
          r.junit_xml.data = s ++ junit_failure_element.data ++ t := by
  refine ⟨Reports.mk
      (TestReport.mk agg.num_requests agg.num_failures (failure_percent agg)
        agg.avg_response_time)
      (generate_junit_report agg), ?_, rfl, ?_⟩
  · simp [on_test_end, h]
  · refine ⟨(junit_head agg.num_requests agg.num_failures).data, junit_tail.data, ?_⟩
    show (junit_head agg.num_requests agg.num_failures
        ++ junit_failure_element ++ junit_tail).data = _
    rw [String.data_append, String.data_append]

theorem junit_matches_json_report_witness :
    ∃ r : Reports, (on_test_end ⟨100, 5, 500⟩).2 = some r
      ∧ r.junit_xml = junit_template r.json.total_requests r.json.failed_requests
      ∧ ∃ s t : List Char,
          r.junit_xml.data = s ++ junit_failure_element.data ++ t :=
  junit_matches_json_report ⟨100, 5, 500⟩ (by decide)
